import Mathlib

/-!
Verification of the pokeye_scanner backend (src/backend/app.py and
src/backend/llm_handler.py) against its specification.

The embedding models parsed JSON values (what Python's json.loads returns)
as the inductive `Json`; Python dicts are association lists in insertion
order (json.loads collapses duplicate keys, so inputs of interest have
unique keys, but no proof below needs that assumption).  Python strings are
Lean `String`s, or `List Char` where character-level slicing from
llm_handler.py is modelled.  Machinery that lives outside the repository
(Flask, base64, PIL, the Gemini SDK, json.loads) is passed in as explicit
function parameters or an `Env` record of oracles; everything from the
repository's own code is translated directly.
-/

namespace Pokeye

/-- Parsed JSON values, as produced by Python's json.loads.  Numbers are
modelled as integers (the schema's only numeric field, hp, is an integer). -/
inductive Json where
  | null : Json
  | bool : Bool → Json
  | num : Int → Json
  | str : String → Json
  | arr : List Json → Json
  | obj : List (String × Json) → Json
  deriving Repr

/-- First-match association-list lookup: Python `d[k]` / `k in d` for dicts. -/
def lookupKey : List (String × Json) → String → Option Json
  | [], _ => none
  | (k, v) :: rest, key => if k = key then some v else lookupKey rest key

/-- Python `d.copy(); d.update(o)`: keys already in `d` keep their position
but take `o`'s value when present; keys only in `o` are appended in order. -/
def dictUpdate (d o : List (String × Json)) : List (String × Json) :=
  (d.map fun kv => (kv.1, (lookupKey o kv.1).getD kv.2))
  ++ o.filter fun kv => (lookupKey d kv.1).isNone

/-- The default attack record: `POKEMON_CARD_SCHEMA["attacks"][0]` in app.py
(and the `attack_schema` the merge loop copies per raw attack). -/
def defaultAttack : List (String × Json) :=
  [("name", .str "Attack 1"), ("cost", .arr []), ("damage", .str ""),
   ("description", .str "")]

/-- POKEMON_CARD_SCHEMA from app.py lines 25-52. -/
def POKEMON_CARD_SCHEMA : List (String × Json) :=
  [("card_name", .str "Unknown"),
   ("hp", .null),
   ("pokemon_type", .arr []),
   ("evolves_from", .null),
   ("attacks", .arr [.obj defaultAttack]),
   ("weakness", .obj [("type", .null), ("value", .null)]),
   ("resistance", .obj [("type", .null), ("value", .null)]),
   ("retreat_cost", .arr []),
   ("card_number", .str ""),
   ("rarity", .str ""),
   ("illustrator", .str ""),
   ("set_name", .str ""),
   ("additional_info", .str "")]

/-- Per-attack overlay from app.py lines 121-127: a dict element is laid
over a copy of the default attack record; anything else passes through. -/
def overlayAttack : Json → Json
  | .obj kvs => .obj (dictUpdate defaultAttack kvs)
  | j => j

/-- The body of the merge loop for one key whose raw value is present and
non-null (app.py lines 110-132): dict-over-dict shallow merge, the special
attacks list overlay (only when the raw list is truthy, i.e. non-empty),
outright replacement for other default-list/raw-list pairs, and outright
replacement in every remaining case. -/
def reconcileField (key : String) (dflt raw : Json) : Json :=
  match dflt, raw with
  | .obj dkvs, .obj rkvs => .obj (dictUpdate dkvs rkvs)
  | .arr _, .arr rs =>
      if key == "attacks" && !rs.isEmpty then .arr (rs.map overlayAttack)
      else .arr rs
  | _, _ => raw

/-- One iteration of the merge loop (app.py lines 108-133), specialised to
a dict-shaped model reply: keep the schema default when the key is absent
or null, otherwise reconcile. -/
def mergeField (llm : List (String × Json)) (key : String) (dflt : Json) :
    Json :=
  match lookupKey llm key with
  | none => dflt
  | some .null => dflt
  | some v => reconcileField key dflt v

/-- The Reconciler on a dict-shaped model reply: `processed_data` starts as
a copy of the schema and every schema key is visited in order, so the
result is the schema list with each value pushed through `mergeField`. -/
def mergeCard (llm : List (String × Json)) : List (String × Json) :=
  POKEMON_CARD_SCHEMA.map fun kv => (kv.1, mergeField llm kv.1 kv.2)

/-! ### Association-list lookup lemmas -/

theorem lookup_append (a b : List (String × Json)) (k : String) :
    lookupKey (a ++ b) k = (lookupKey a k).or (lookupKey b k) := by
  induction a with
  | nil => simp [lookupKey]
  | cons kv rest ih =>
      by_cases h : kv.1 = k <;> simp [lookupKey, h, ih]

theorem lookup_map_keyed (l : List (String × Json)) (g : String → Json → Json)
    (k : String) :
    lookupKey (l.map fun kv => (kv.1, g kv.1 kv.2)) k =
      (lookupKey l k).map (g k) := by
  induction l with
  | nil => simp [lookupKey]
  | cons kv rest ih =>
      by_cases h : kv.1 = k <;> simp [lookupKey, h, ih]

theorem lookup_filter (o : List (String × Json)) (p : String × Json → Bool)
    (k : String) (hp : ∀ v, p (k, v) = true) :
    lookupKey (o.filter p) k = lookupKey o k := by
  induction o with
  | nil => rfl
  | cons kv rest ih =>
      by_cases h : kv.1 = k
      · have hpk : p kv = true := by
          cases kv with | mk k' v => cases h; exact hp v
        simp [List.filter_cons, hpk, lookupKey, h]
      · cases hpkv : p kv <;> simp [List.filter_cons, hpkv, lookupKey, h, ih]

/-- Lookup in a Python dict merge `d.copy(); d.update(o)`: the raw value
wins when present, the default survives otherwise. -/
theorem lookup_dictUpdate (d o : List (String × Json)) (k : String) :
    lookupKey (dictUpdate d o) k = (lookupKey o k).or (lookupKey d k) := by
  unfold dictUpdate
  rw [lookup_append,
    lookup_map_keyed d (fun key v => (lookupKey o key).getD v) k]
  cases hd : lookupKey d k with
  | none =>
      rw [lookup_filter o _ k (fun v => by simp [hd])]
      cases lookupKey o k <;> simp
  | some dv => cases ho : lookupKey o k <;> simp [ho]

/-- Lookup in the reconciled record: the schema value pushed through
`mergeField`. -/
theorem lookup_mergeCard (llm : List (String × Json)) (k : String) :
    lookupKey (mergeCard llm) k =
      (lookupKey POKEMON_CARD_SCHEMA k).map (mergeField llm k) :=
  lookup_map_keyed POKEMON_CARD_SCHEMA (mergeField llm) k

/-! ### Claims about the Reconciler -/

/-- C1: for every raw model reply, the reconciled record carries exactly the
thirteen top-level schema keys, in schema order, and every key that the
schema has is present (never absent) in the output. -/
theorem c1_all_schema_fields_present (llm : List (String × Json)) :
    (mergeCard llm).map Prod.fst =
      ["card_name", "hp", "pokemon_type", "evolves_from", "attacks",
       "weakness", "resistance", "retreat_cost", "card_number", "rarity",
       "illustrator", "set_name", "additional_info"] ∧
    ∀ k, (lookupKey POKEMON_CARD_SCHEMA k).isSome = true →
      (lookupKey (mergeCard llm) k).isSome = true := by
  constructor
  · rfl
  · intro k h
    rw [lookup_mergeCard]
    cases hs : lookupKey POKEMON_CARD_SCHEMA k
    · rw [hs] at h; simp at h
    · rfl

/-- Witness for C1 at a concrete reply and key. -/
theorem c1_witness :
    (lookupKey (mergeCard [("hp", Json.num 70)]) "hp").isSome = true :=
  (c1_all_schema_fields_present [("hp", Json.num 70)]).2 "hp" rfl

/-- C2: a field the model reply omits, or maps to null, comes out equal to
the schema default for that field. -/
theorem c2_absent_or_null_keeps_default (llm : List (String × Json))
    (k : String)
    (h : lookupKey llm k = none ∨ lookupKey llm k = some .null) :
    lookupKey (mergeCard llm) k = lookupKey POKEMON_CARD_SCHEMA k := by
  rw [lookup_mergeCard]
  cases hs : lookupKey POKEMON_CARD_SCHEMA k
  · rfl
  · rcases h with h | h <;> simp [mergeField, h]

/-- Witness for C2: an omitted attacks field yields the one-element default
attack list, and a null weakness yields the default modifier record. -/
theorem c2_witness :
    lookupKey (mergeCard []) "attacks" = some (.arr [.obj defaultAttack]) ∧
    lookupKey (mergeCard [("weakness", .null)]) "weakness" =
      some (.obj [("type", .null), ("value", .null)]) :=
  ⟨(c2_absent_or_null_keeps_default [] "attacks" (Or.inl rfl)).trans rfl,
   (c2_absent_or_null_keeps_default [("weakness", .null)] "weakness"
     (Or.inr rfl)).trans rfl⟩

/-- C3: a non-null mapping at weakness or resistance is shallow-merged over
a copy of the modifier defaults: at every sub-key the raw value wins when
present, and otherwise the default value is retained. -/
theorem c3_modifier_shallow_merge (llm w : List (String × Json))
    (key : String) (hkey : key = "weakness" ∨ key = "resistance")
    (h : lookupKey llm key = some (.obj w)) :
    lookupKey (mergeCard llm) key =
      some (.obj (dictUpdate [("type", .null), ("value", .null)] w)) ∧
    ∀ k, lookupKey (dictUpdate [("type", .null), ("value", .null)] w) k =
      (lookupKey w k).or (lookupKey [("type", .null), ("value", .null)] k) := by
  refine ⟨?_, fun k => lookup_dictUpdate _ _ _⟩
  rcases hkey with rfl | rfl <;>
    · rw [lookup_mergeCard]
      simp [mergeField, h, reconcileField]
      exact ⟨_, rfl, rfl⟩

/-- Witness for C3: weakness Fire with no value reconciles to type Fire,
value null. -/
theorem c3_witness :
    lookupKey (mergeCard [("weakness", .obj [("type", .str "Fire")])])
        "weakness" =
      some (.obj [("type", .str "Fire"), ("value", .null)]) :=
  ((c3_modifier_shallow_merge [("weakness", .obj [("type", .str "Fire")])]
    [("type", .str "Fire")] "weakness" (Or.inl rfl) rfl).1).trans rfl

/-- C4: a non-empty raw attacks list is reconciled element by element in
order; dict elements are overlaid on a copy of the default attack record
(raw sub-keys win, missing sub-keys take the defaults) and non-dict
elements pass through unchanged. -/
theorem c4_attacks_overlay (llm : List (String × Json)) (atts : List Json)
    (h : lookupKey llm "attacks" = some (.arr atts)) (hne : atts ≠ []) :
    lookupKey (mergeCard llm) "attacks" =
      some (.arr (atts.map overlayAttack)) ∧
    (∀ kvs, overlayAttack (.obj kvs) = .obj (dictUpdate defaultAttack kvs)) ∧
    (∀ j, (∀ kvs, j ≠ .obj kvs) → overlayAttack j = j) ∧
    (∀ kvs k, lookupKey (dictUpdate defaultAttack kvs) k =
      (lookupKey kvs k).or (lookupKey defaultAttack k)) := by
  refine ⟨?_, fun kvs => rfl, ?_, fun kvs k => lookup_dictUpdate _ _ _⟩
  · rw [lookup_mergeCard]
    have hemp : atts.isEmpty = false := by
      cases atts with
      | nil => exact absurd rfl hne
      | cons a l => rfl
    simp [mergeField, h, reconcileField]
    exact ⟨_, rfl, by simp [hemp]⟩
  · intro j hj
    cases j with
    | obj kvs => exact absurd rfl (hj kvs)
    | null => rfl
    | bool b => rfl
    | num n => rfl
    | str s => rfl
    | arr xs => rfl

/-- Witness for C4: attacks with the single dict name Tackle reconciles to
the fully defaulted attack record. -/
theorem c4_witness :
    lookupKey (mergeCard [("attacks", .arr [.obj [("name", .str "Tackle")]])])
        "attacks" =
      some (.arr [.obj [("name", .str "Tackle"), ("cost", .arr []),
        ("damage", .str ""), ("description", .str "")]]) :=
  ((c4_attacks_overlay [("attacks", .arr [.obj [("name", .str "Tackle")]])]
    [.obj [("name", .str "Tackle")]] rfl (by simp)).1).trans rfl

/-- C5: for the list-typed schema fields other than attacks, a raw list
value replaces the default outright. -/
theorem c5_other_lists_replace (llm : List (String × Json)) (vs : List Json)
    (key : String) (hkey : key = "pokemon_type" ∨ key = "retreat_cost")
    (h : lookupKey llm key = some (.arr vs)) :
    lookupKey (mergeCard llm) key = some (.arr vs) := by
  rcases hkey with rfl | rfl <;>
    · rw [lookup_mergeCard]
      simp [mergeField, h, reconcileField]
      exact ⟨_, rfl, rfl⟩

/-- Witness for C5: pokemon_type Fire, Flying comes back exactly. -/
theorem c5_witness :
    lookupKey
        (mergeCard [("pokemon_type", .arr [.str "Fire", .str "Flying"])])
        "pokemon_type" =
      some (.arr [.str "Fire", .str "Flying"]) :=
  c5_other_lists_replace [("pokemon_type", .arr [.str "Fire", .str "Flying"])]
    [.str "Fire", .str "Flying"] "pokemon_type" (Or.inl rfl) rfl

/-- C10: a raw empty attacks list replaces the default placeholder attack
outright; the per-element overlay only fires on non-empty raw lists. -/
theorem c10_empty_attacks_replace (llm : List (String × Json))
    (h : lookupKey llm "attacks" = some (.arr [])) :
    lookupKey (mergeCard llm) "attacks" = some (.arr []) := by
  rw [lookup_mergeCard]
  simp [mergeField, h, reconcileField]
  exact ⟨_, rfl, rfl⟩

/-- Witness for C10. -/
theorem c10_witness :
    lookupKey (mergeCard [("attacks", .arr [])]) "attacks" =
      some (.arr []) :=
  c10_empty_attacks_replace [("attacks", .arr [])] rfl

/-! ### Model Client response cleanup (llm_handler.py lines 107-116)

Python strings are modelled as `List Char` here because the fence stripping
slices by character index. -/

/-- The backtick character, code point 96. -/
def bq : Char := Char.ofNat 96

/-- The three-backtick fence opener. -/
def fence : List Char := [bq, bq, bq]

/-- The fence opener with the json language tag. -/
def fenceTag : List Char := [bq, bq, bq, 'j', 's', 'o', 'n']

theorem fence_spelling : fence = "```".toList := by decide

theorem fenceTag_spelling : fenceTag = "```json".toList := by decide

/-- Python str.lstrip for whitespace. -/
def lstrip (l : List Char) : List Char := l.dropWhile Char.isWhitespace

/-- Python str.rstrip for whitespace. -/
def rstrip (l : List Char) : List Char :=
  (l.reverse.dropWhile Char.isWhitespace).reverse

/-- Python str.strip: shave whitespace off both ends. -/
def pyStrip (l : List Char) : List Char := rstrip (lstrip l)

/-- Python str.startswith. -/
def startsWithL : List Char → List Char → Bool
  | [], _ => true
  | _ :: _, [] => false
  | p :: ps, c :: cs => p == c && startsWithL ps cs

/-- Python slice `l[a:-b]` for b greater than 0. -/
def pySlice (a b : Nat) (l : List Char) : List Char :=
  (l.take (l.length - b)).drop a

/-- Lines 107-114 of llm_handler.py: strip, then peel a ```json fence, else
a bare ``` fence, stripping again after the peel. -/
def cleanResponse (s : List Char) : List Char :=
  if startsWithL fenceTag (pyStrip s) then pyStrip (pySlice 7 3 (pyStrip s))
  else if startsWithL fence (pyStrip s) then pyStrip (pySlice 3 3 (pyStrip s))
  else pyStrip s

/-- A reply wrapped in a tagged fence: three backticks, json, newline, the
text, newline, three backticks. -/
def wrapTagged (t : List Char) : List Char :=
  (fenceTag ++ ['\n']) ++ (t ++ ('\n' :: fence))

/-- A reply wrapped in an untagged fence. -/
def wrapPlain (t : List Char) : List Char :=
  (fence ++ ['\n']) ++ (t ++ ('\n' :: fence))

theorem wrapTagged_spelling (t : List Char) :
    wrapTagged t = "```json\n".toList ++ (t ++ "\n```".toList) := by
  rw [show "```json\n".toList = fenceTag ++ ['\n'] from by decide,
    show "\n```".toList = '\n' :: fence from by decide]
  rfl

theorem wrapPlain_spelling (t : List Char) :
    wrapPlain t = "```\n".toList ++ (t ++ "\n```".toList) := by
  rw [show "```\n".toList = fence ++ ['\n'] from by decide,
    show "\n```".toList = '\n' :: fence from by decide]
  rfl

theorem ws_bq : bq.isWhitespace = false := by decide

theorem lstrip_cons_not_ws (c : Char) (l : List Char)
    (h : c.isWhitespace = false) : lstrip (c :: l) = c :: l := by
  simp [lstrip, List.dropWhile_cons, h]

theorem lstrip_cons_ws (c : Char) (l : List Char)
    (h : c.isWhitespace = true) : lstrip (c :: l) = lstrip l := by
  simp [lstrip, List.dropWhile_cons, h]

theorem rstrip_append_not_ws (l : List Char) (c : Char)
    (h : c.isWhitespace = false) : rstrip (l ++ [c]) = l ++ [c] := by
  simp [rstrip, List.dropWhile_cons, h]

theorem rstrip_append_ws (l : List Char) (c : Char)
    (h : c.isWhitespace = true) : rstrip (l ++ [c]) = rstrip l := by
  simp [rstrip, List.dropWhile_cons, h]

theorem pyStrip_cons_nl (l : List Char) : pyStrip ('\n' :: l) = pyStrip l := by
  simp [pyStrip, lstrip_cons_ws '\n' l rfl]

theorem pyStrip_append_nl (l : List Char) :
    pyStrip (l ++ ['\n']) = pyStrip l := by
  unfold pyStrip lstrip
  rw [List.dropWhile_append]
  cases h : (l.dropWhile Char.isWhitespace).isEmpty
  · simp only [h, Bool.false_eq_true, if_false]
    exact rstrip_append_ws _ '\n' rfl
  · simp only [h, if_true]
    rw [List.isEmpty_iff] at h
    rw [h]
    rfl

theorem lstrip_fenceTag_append (x : List Char) :
    lstrip (fenceTag ++ x) = fenceTag ++ x := by
  rw [show fenceTag ++ x = bq :: ([bq, bq, 'j', 's', 'o', 'n'] ++ x) from rfl]
  exact lstrip_cons_not_ws _ _ ws_bq

theorem lstrip_fence_append (x : List Char) :
    lstrip (fence ++ x) = fence ++ x := by
  rw [show fence ++ x = bq :: ([bq, bq] ++ x) from rfl]
  exact lstrip_cons_not_ws _ _ ws_bq

theorem rstrip_append_fence (l : List Char) :
    rstrip (l ++ fence) = l ++ fence := by
  rw [show l ++ fence = (l ++ [bq, bq]) ++ [bq] from by simp [fence]]
  exact rstrip_append_not_ws _ _ ws_bq

theorem pyStrip_wrapTagged (t : List Char) :
    pyStrip (wrapTagged t) = wrapTagged t := by
  unfold pyStrip
  rw [show wrapTagged t = fenceTag ++ (['\n'] ++ (t ++ ('\n' :: fence)))
      from by simp [wrapTagged],
    lstrip_fenceTag_append,
    show fenceTag ++ (['\n'] ++ (t ++ ('\n' :: fence))) =
      ((fenceTag ++ ['\n']) ++ (t ++ ['\n'])) ++ fence from by simp,
    rstrip_append_fence]

theorem pyStrip_wrapPlain (t : List Char) :
    pyStrip (wrapPlain t) = wrapPlain t := by
  unfold pyStrip
  rw [show wrapPlain t = fence ++ (['\n'] ++ (t ++ ('\n' :: fence)))
      from by simp [wrapPlain],
    lstrip_fence_append,
    show fence ++ (['\n'] ++ (t ++ ('\n' :: fence))) =
      ((fence ++ ['\n']) ++ (t ++ ['\n'])) ++ fence from by simp,
    rstrip_append_fence]

theorem startsWithL_append (p x : List Char) :
    startsWithL p (p ++ x) = true := by
  induction p with
  | nil => rfl
  | cons a as ih => simp [startsWithL, ih]

theorem startsWithL_extend_false (p q l : List Char)
    (h : startsWithL p l = false) : startsWithL (p ++ q) l = false := by
  induction p generalizing l with
  | nil => simp [startsWithL] at h
  | cons a as ih =>
      cases l with
      | nil => rfl
      | cons c cs =>
          simp only [startsWithL, Bool.and_eq_false_iff] at h
          rcases h with h | h
          · simp [startsWithL, h]
          · simp [startsWithL, ih cs h]

theorem startsWith_tagged (t : List Char) :
    startsWithL fenceTag (wrapTagged t) = true := by
  rw [show wrapTagged t = fenceTag ++ (['\n'] ++ (t ++ ('\n' :: fence)))
      from by simp [wrapTagged]]
  exact startsWithL_append _ _

theorem startsWith_plain (t : List Char) :
    startsWithL fence (wrapPlain t) = true := by
  rw [show wrapPlain t = fence ++ (['\n'] ++ (t ++ ('\n' :: fence)))
      from by simp [wrapPlain]]
  exact startsWithL_append _ _

theorem not_tagged_plain (t : List Char) :
    startsWithL fenceTag (wrapPlain t) = false := by
  rw [show wrapPlain t = bq :: (bq :: (bq :: ('\n' :: (t ++ ('\n' :: fence)))))
      from by simp [wrapPlain, fence]]
  have hj : ('j' == '\n') = false := by decide
  simp [startsWithL, fenceTag, hj]

theorem slice_tagged (t : List Char) :
    pySlice 7 3 (wrapTagged t) = '\n' :: (t ++ ['\n']) := by
  unfold pySlice
  rw [show wrapTagged t = ((fenceTag ++ ['\n']) ++ (t ++ ['\n'])) ++ fence
      from by simp [wrapTagged]]
  rw [List.take_left' (by simp [fenceTag, fence])]
  rw [show (fenceTag ++ ['\n']) ++ (t ++ ['\n']) =
      fenceTag ++ (['\n'] ++ (t ++ ['\n'])) from by simp]
  rfl

theorem slice_plain (t : List Char) :
    pySlice 3 3 (wrapPlain t) = '\n' :: (t ++ ['\n']) := by
  unfold pySlice
  rw [show wrapPlain t = ((fence ++ ['\n']) ++ (t ++ ['\n'])) ++ fence
      from by simp [wrapPlain]]
  rw [List.take_left' (by simp [fence])]
  rw [show (fence ++ ['\n']) ++ (t ++ ['\n']) =
      fence ++ (['\n'] ++ (t ++ ['\n'])) from by simp]
  rfl

/-- C6: wrapping a text in a fenced code block, with or without the json
language tag, is invisible to the Model Client's cleanup: the cleaned
wrapped reply coincides with the cleaned unwrapped reply (both are the
stripped text), so any JSON parser reads the same value from both. -/
theorem c6_fence_stripping (t : List Char)
    (h : startsWithL fence (pyStrip t) = false) :
    cleanResponse (wrapTagged t) = pyStrip t ∧
    cleanResponse (wrapPlain t) = pyStrip t ∧
    cleanResponse t = pyStrip t ∧
    ∀ parse : List Char → Option Json,
      parse (cleanResponse (wrapTagged t)) = parse (cleanResponse t) ∧
      parse (cleanResponse (wrapPlain t)) = parse (cleanResponse t) := by
  have htag : cleanResponse (wrapTagged t) = pyStrip t := by
    unfold cleanResponse
    rw [pyStrip_wrapTagged, startsWith_tagged, if_pos rfl, slice_tagged,
      pyStrip_cons_nl, pyStrip_append_nl]
  have hplain : cleanResponse (wrapPlain t) = pyStrip t := by
    unfold cleanResponse
    rw [pyStrip_wrapPlain, not_tagged_plain, startsWith_plain]
    simp [slice_plain, pyStrip_cons_nl, pyStrip_append_nl]
  have hbare : cleanResponse t = pyStrip t := by
    unfold cleanResponse
    have htagf : startsWithL fenceTag (pyStrip t) = false := by
      rw [show fenceTag = fence ++ ['j', 's', 'o', 'n'] from rfl]
      exact startsWithL_extend_false _ _ _ h
    rw [htagf, h]
    simp
  exact ⟨htag, hplain, hbare, fun parse => by rw [htag, hplain, hbare]; exact ⟨rfl, rfl⟩⟩

/-- Witness for C6 on the concrete text 42. -/
theorem c6_witness :
    cleanResponse (wrapTagged ['4', '2']) = ['4', '2'] ∧
    cleanResponse (wrapPlain ['4', '2']) = ['4', '2'] := by
  have h := c6_fence_stripping ['4', '2'] (by decide)
  exact ⟨h.1.trans (by decide), h.2.1.trans (by decide)⟩

/-! ### The request handler (app.py scan_card, lines 63-147)

Python exceptions are errors of an `Except PyExc` computation; the two
except clauses of scan_card distinguish binascii.Error from everything
else.  Library calls whose outcome the handler cannot control — base64
decoding, PIL open/save, the Gemini call, uuid generation — are oracles in
an `Env` record; the handler logic itself is translated from the source. -/

/-- A raised Python exception: binascii.Error, or any other Exception. -/
inductive PyExc where
  | binascii : String → PyExc
  | generic : String → PyExc
  deriving Repr, DecidableEq

theorem ok_bind {α β ε : Type} (a : α) (f : α → Except ε β) :
    (Except.ok a >>= f) = f a := rfl

theorem error_bind {α β ε : Type} (e : ε) (f : α → Except ε β) :
    ((Except.error e : Except ε α) >>= f) = Except.error e := rfl

/-- Python truthiness of a parsed JSON value (`if not data`). -/
def pythonTruthy : Json → Bool
  | .null => false
  | .bool b => b
  | .num n => n != 0
  | .str s => !(s == "")
  | .arr xs => !xs.isEmpty
  | .obj kvs => !kvs.isEmpty

/-- Substring test, Python `needle in haystack` on strings. -/
def containsSub (needle hay : List Char) : Bool :=
  hay.tails.any fun t => needle.isPrefixOf t

/-- Python `key in x` on a parsed JSON value: key membership for dicts,
element equality for lists, substring for strings, TypeError otherwise. -/
def pyContains (key : String) : Json → Except PyExc Bool
  | .obj kvs => .ok (lookupKey kvs key).isSome
  | .arr xs => .ok (xs.any fun j =>
      match j with
      | .str s => s == key
      | _ => false)
  | .str s => .ok (containsSub key.toList s.toList)
  | .null => .error (.generic "TypeError: argument of type NoneType is not iterable")
  | .bool _ => .error (.generic "TypeError: argument of type bool is not iterable")
  | .num _ => .error (.generic "TypeError: argument of type int is not iterable")

/-- Python `x[key]` with a string key: dict lookup, TypeError on any
non-dict value. -/
def pySubscript : Json → String → Except PyExc Json
  | .obj kvs, key =>
      match lookupKey kvs key with
      | some v => .ok v
      | none => .error (.generic ("KeyError: " ++ key))
  | .str _, _ => .error (.generic "TypeError: string indices must be integers")
  | .arr _, _ => .error (.generic "TypeError: list indices must be integers or slices, not str")
  | _, _ => .error (.generic "TypeError: object is not subscriptable")

/-- Python `s.split(c, 1)` restricted to the two-element case: the text up
to the first separator and the rest; none when the separator is absent. -/
def splitFirst : List Char → Char → Option (List Char × List Char)
  | [], _ => none
  | x :: xs, c =>
      if x == c then some ([], xs)
      else match splitFirst xs c with
        | none => none
        | some (a, b) => some (x :: a, b)

/-- Python `s.split(c)` with no limit: always at least one piece. -/
def splitAll (l : List Char) (c : Char) : List (List Char) :=
  match l with
  | [] => [[]]
  | x :: xs =>
      if x == c then [] :: splitAll xs c
      else match splitAll xs c with
        | [] => [[x]]
        | h :: t => (x :: h) :: t

/-- The single-quote character, code point 39, for Python repr output. -/
def sq : Char := Char.ofNat 39

/-- Wrap a string in Python repr single quotes. -/
def quoteS (s : String) : String := String.mk (sq :: (s.toList ++ [sq]))

mutual

/-- Python repr of a parsed JSON value. -/
def pyRepr : Json → String
  | .null => "None"
  | .bool true => "True"
  | .bool false => "False"
  | .num n => toString n
  | .str s => quoteS s
  | .arr xs => "[" ++ pyReprList xs ++ "]"
  | .obj kvs => "\x7b" ++ pyReprObj kvs ++ "\x7d"

/-- Comma-joined reprs of list elements. -/
def pyReprList : List Json → String
  | [] => ""
  | [x] => pyRepr x
  | x :: xs => pyRepr x ++ ", " ++ pyReprList xs

/-- Comma-joined key: value reprs of dict entries. -/
def pyReprObj : List (String × Json) → String
  | [] => ""
  | [(k, v)] => quoteS k ++ ": " ++ pyRepr v
  | (k, v) :: kvs => quoteS k ++ ": " ++ pyRepr v ++ ", " ++ pyReprObj kvs

end

/-- Python str() of a parsed JSON value, as an f-string embeds it: the
string itself for strings, repr-style text otherwise. -/
def pyToString : Json → String
  | .str s => s
  | j => pyRepr j

/-- External effects the handler invokes, as oracles: base64.b64decode
(which may raise binascii.Error), PIL Image.open plus save on the decoded
bytes and target path, the Model Client call, and the generated uuid. -/
structure Env where
  b64decode : String → Except PyExc (List Nat)
  imageOpenSave : List Nat → String → Except PyExc Unit
  llm : List Nat → Except PyExc Json
  uuid : String

/-- One step of the merge loop of app.py lines 108-133 under full Python
semantics for `key in llm_response` and `llm_response[key]`, so that
non-dict model replies raise exactly where Python would. -/
def mergeStep (llm : Json) (key : String) (dflt : Json) :
    Except PyExc Json := do
  let mem ← pyContains key llm
  if mem then do
    let v ← pySubscript llm key
    match v with
    | .null => Except.ok dflt
    | v => Except.ok (reconcileField key dflt v)
  else Except.ok dflt

/-- The whole merge loop: every schema key in order, first raise aborts. -/
def mergeAll (llm : Json) : Except PyExc (List (String × Json)) :=
  POKEMON_CARD_SCHEMA.mapM fun kv =>
    (mergeStep llm kv.1 kv.2).map fun v => (kv.1, v)

/-- The try block of scan_card (app.py lines 71-140): split the data URL at
the first comma, base64-decode, derive the extension from the header,
open and save the image, call the Model Client, then either report its
error dict (500, with the raw text when present) or reconcile and return
200. -/
def tryBody (image_data_url : Json) (env : Env) :
    Except PyExc (Nat × Json) := do
  let s ← match image_data_url with
    | .str s => Except.ok s
    | _ => Except.error (.generic "AttributeError: object has no attribute split")
  let he ← match splitFirst s.data ',' with
    | some (h, e) => Except.ok (String.mk h, String.mk e)
    | none => Except.error (.generic "ValueError: not enough values to unpack")
  let image_bytes ← env.b64decode he.2
  let image_format ← match (splitAll he.1.data '/')[1]? with
    | some part => Except.ok (String.mk ((splitAll part ';').headD []))
    | none => Except.error (.generic "IndexError: list index out of range")
  let filename := "scan_" ++ env.uuid ++ "." ++ image_format
  let _ ← env.imageOpenSave image_bytes ("uploads/" ++ filename)
  let llm_response ← env.llm image_bytes
  let hasError ← pyContains "error" llm_response
  if hasError then do
    let errv ← pySubscript llm_response "error"
    let errorDetail :=
      [("error", Json.str ("LLM processing error: " ++ pyToString errv))]
    let hasRaw ← pyContains "raw_response" llm_response
    if hasRaw then do
      let rawv ← pySubscript llm_response "raw_response"
      Except.ok (500, Json.obj (errorDetail ++ [("llm_raw_response", rawv)]))
    else Except.ok (500, Json.obj errorDetail)
  else do
    let processed ← mergeAll llm_response
    Except.ok (200, Json.obj processed)

/-- scan_card (app.py lines 63-147).  The payload is the parsed request
body; the missing-image check and the `data['image']` subscript run before
the try block, so exceptions they raise propagate out of the handler
(an `Except.error` result). -/
def scan_card (payload : Json) (env : Env) : Except PyExc (Nat × Json) := do
  if !pythonTruthy payload then
    Except.ok (400, Json.obj [("error", .str "No image data provided")])
  else do
    let mem ← pyContains "image" payload
    if !mem then
      Except.ok (400, Json.obj [("error", .str "No image data provided")])
    else do
      let image_data_url ← pySubscript payload "image"
      match tryBody image_data_url env with
      | .ok r => Except.ok r
      | .error (.binascii _) =>
          Except.ok (400, Json.obj [("error", .str "Invalid base64 image data")])
      | .error (.generic m) =>
          Except.ok (500,
            Json.obj [("error", .str ("An unexpected error occurred: " ++ m))])

/-- The JSON-parse tail of extract_card_info_gemini (llm_handler.py lines
107-125): clean the model text, parse it with json.loads (the `parse`
parameter), and on failure return the error dict carrying the original
raw text. -/
def extract_card_info_text (text : String)
    (parse : List Char → Option Json) : Json :=
  match parse (cleanResponse text.toList) with
  | some card_data => card_data
  | none => .obj [("error", .str "Failed to parse LLM response as JSON."),
                  ("raw_response", .str text)]

/-! ### Handler lemmas and claims -/

/-- A payload dict without an image key is rejected with the 400
missing-image response (and an empty dict is falsy, same response). -/
theorem scan_card_obj_no_image (kvs : List (String × Json)) (env : Env)
    (h : lookupKey kvs "image" = none) :
    scan_card (.obj kvs) env =
      .ok (400, Json.obj [("error", .str "No image data provided")]) := by
  cases kvs with
  | nil => rfl
  | cons a l =>
      simp [scan_card, pythonTruthy, pyContains, h, ok_bind]

/-- A payload dict with an image value reaches the try block, whose two
except clauses turn a binascii.Error into the 400 invalid-base64 response
and any other exception into the generic 500 response. -/
theorem scan_card_obj_image (kvs : List (String × Json)) (env : Env)
    (v : Json) (h : lookupKey kvs "image" = some v) :
    scan_card (.obj kvs) env =
      match tryBody v env with
      | .ok r => .ok r
      | .error (.binascii _) =>
          .ok (400, Json.obj [("error", .str "Invalid base64 image data")])
      | .error (.generic m) =>
          .ok (500, Json.obj
            [("error", .str ("An unexpected error occurred: " ++ m))]) := by
  have hne : kvs.isEmpty = false := by
    cases kvs with
    | nil => simp [lookupKey] at h
    | cons a l => rfl
  simp [scan_card, pythonTruthy, hne, pyContains, h, pySubscript, ok_bind]

/-- C7: when the image field is a data URL whose base64 payload makes the
decoder raise binascii.Error, the handler answers 400 with exactly the
invalid-base64 body. -/
theorem c7_invalid_base64_400 (kvs : List (String × Json)) (env : Env)
    (s : String) (hdr enc : List Char) (m : String)
    (himg : lookupKey kvs "image" = some (.str s))
    (hsplit : splitFirst s.data ',' = some (hdr, enc))
    (hb64 : env.b64decode (String.mk enc) = .error (.binascii m)) :
    scan_card (.obj kvs) env =
      .ok (400, Json.obj [("error", .str "Invalid base64 image data")]) := by
  rw [scan_card_obj_image kvs env (.str s) himg]
  simp [tryBody, hsplit, hb64, ok_bind, error_bind]

/-- Environment whose base64 decoder always raises, standing in for the
decode of a payload such as %%%notbase64%%% (nine alphabet characters
survive the non-alphabet filter, and nine is not a multiple of four). -/
def b64FailEnv : Env where
  b64decode := fun _ => .error (.binascii "Invalid base64-encoded string")
  imageOpenSave := fun _ _ => .ok ()
  llm := fun _ => .ok (.obj [])
  uuid := "u"

/-- Witness for C7 at the concrete malformed data URL of the spec. -/
theorem c7_witness :
    scan_card (.obj [("image", .str "data:image/png;base64,%%%notbase64%%%")])
        b64FailEnv =
      .ok (400, Json.obj [("error", .str "Invalid base64 image data")]) :=
  c7_invalid_base64_400
    [("image", .str "data:image/png;base64,%%%notbase64%%%")] b64FailEnv
    "data:image/png;base64,%%%notbase64%%%"
    "data:image/png;base64".toList "%%%notbase64%%%".toList
    "Invalid base64-encoded string" rfl rfl rfl

/-- C8: when the model text fails to parse as JSON after fence stripping,
the Model Client returns its error dict and the handler answers 500 with
the error message and the original raw text under llm_raw_response. -/
theorem c8_parse_failure_500 (kvs : List (String × Json)) (env : Env)
    (s : String) (hdr enc : List Char) (bytes : List Nat)
    (fmtpart : List Char) (text : String)
    (parse : List Char → Option Json)
    (himg : lookupKey kvs "image" = some (.str s))
    (hsplit : splitFirst s.data ',' = some (hdr, enc))
    (hb64 : env.b64decode (String.mk enc) = .ok bytes)
    (hfmt : (splitAll hdr '/')[1]? = some fmtpart)
    (hsave : ∀ b f, env.imageOpenSave b f = .ok ())
    (hllm : env.llm bytes = .ok (extract_card_info_text text parse))
    (hparse : parse (cleanResponse text.toList) = none) :
    scan_card (.obj kvs) env =
      .ok (500, Json.obj
        [("error",
          .str "LLM processing error: Failed to parse LLM response as JSON."),
         ("llm_raw_response", .str text)]) := by
  rw [scan_card_obj_image kvs env (.str s) himg]
  have hparse2 : parse (cleanResponse text.data) = none := hparse
  simp [tryBody, hsplit, hb64, hfmt, hsave, hllm,
    extract_card_info_text, hparse2, pyContains, pySubscript, lookupKey,
    pyToString, ok_bind, error_bind]

/-- Environment standing in for a model that answers unparsable text. -/
def parseFailEnv : Env where
  b64decode := fun _ => .ok [1]
  imageOpenSave := fun _ _ => .ok ()
  llm := fun _ =>
    .ok (extract_card_info_text "oops not json" (fun _ => none))
  uuid := "u"

/-- Witness for C8 on the concrete raw text oops not json. -/
theorem c8_witness :
    scan_card (.obj [("image", .str "data:image/png;base64,AAAA")])
        parseFailEnv =
      .ok (500, Json.obj
        [("error",
          .str "LLM processing error: Failed to parse LLM response as JSON."),
         ("llm_raw_response", .str "oops not json")]) :=
  c8_parse_failure_500 [("image", .str "data:image/png;base64,AAAA")]
    parseFailEnv "data:image/png;base64,AAAA"
    "data:image/png;base64".toList "AAAA".toList [1]
    "png;base64".toList "oops not json" (fun _ => none)
    rfl rfl rfl rfl (fun _ _ => rfl) rfl rfl

/-- Environment with every oracle succeeding trivially. -/
def trivEnv : Env where
  b64decode := fun _ => .ok []
  imageOpenSave := fun _ _ => .ok ()
  llm := fun _ => .ok (.obj [])
  uuid := "u"

/-- C9 as stated is false: the truthy JSON string payload image passes the
membership test (substring semantics) and then data subscripting with a
string key raises a TypeError before the try block, which the handler
propagates instead of converting to a response. -/
theorem c9_counterexample :
    scan_card (.str "image") trivEnv =
      .error (.generic "TypeError: string indices must be integers") := rfl

/-- C9 amended: for payloads whose top-level value is a JSON object the
handler never propagates an exception — it always produces a response, and
any failure inside the try block that is neither a binascii.Error nor a
Model-Client-reported error dict becomes the generic 500 response. -/
theorem c9_amended_object_payloads_never_propagate
    (kvs : List (String × Json)) (env : Env) :
    (∃ r, scan_card (.obj kvs) env = .ok r) ∧
    (∀ v m, lookupKey kvs "image" = some v →
      tryBody v env = .error (.generic m) →
      scan_card (.obj kvs) env =
        .ok (500, Json.obj
          [("error", .str ("An unexpected error occurred: " ++ m))])) := by
  constructor
  · cases himg : lookupKey kvs "image" with
    | none => exact ⟨_, scan_card_obj_no_image kvs env himg⟩
    | some v =>
        rw [scan_card_obj_image kvs env v himg]
        cases htry : tryBody v env with
        | ok r => exact ⟨r, rfl⟩
        | error e => cases e <;> exact ⟨_, rfl⟩
  · intro v m himg htry
    rw [scan_card_obj_image kvs env v himg, htry]

/-- Witness for the amended C9: a numeric image value makes the split call
raise AttributeError inside the try block, converted to the generic 500. -/
theorem c9_witness :
    scan_card (.obj [("image", .num 3)]) trivEnv =
      .ok (500, Json.obj
        [("error", .str ("An unexpected error occurred: " ++
          "AttributeError: object has no attribute split"))]) :=
  (c9_amended_object_payloads_never_propagate [("image", .num 3)] trivEnv).2
    (.num 3) "AttributeError: object has no attribute split" rfl rfl

end Pokeye
